import Mathlib

/-!
Shallow embedding of the cascading multi-tier configuration editor in
`src/force-app/main/default/lwc/integrationAdminApp/integrationAdminApp.js`
(the `IntegrationAdminApp` Lightning web component), together with theorems
settling the behavioural claims about its draft store, cascading context
resolver, save coordination and error normalization.

Modelling conventions:
- JavaScript runtime values that flow through `extractError` and through the
  serialized persistence payloads are modelled by the inductive `JSVal`
  (null, undefined, booleans, numbers as `Int`, strings, arrays, objects as
  ordered association lists).
- The component's reactive fields become the record `AdminState`; the
  `undefined` initial values of `selectedSObjectName` / `selectedSystemApiName`
  are modelled with `Option String` (`none` = undefined, and JavaScript
  truthiness of such a field is `truthyOpt`).
- Each `async` handler is embedded as a pure function from the pre-state and
  the settlement of its awaited call (`Except JSVal` — `.error e` models a
  rejected promise carrying `e`) to the post-state, paired with the payload of
  the server call it issues (`none` when no call is made).  `Date.now()` and
  `Math.random()` are passed in as explicit parameters (`now`, `rnd`).
- The inline-edit handlers mutate their row in place
  (`this.systems[idx][field] = value`), so for them object identity matters;
  they are embedded over an explicit heap of allocated arrays (`RefState`),
  where a collection field holds the index of its array in the heap, in-place
  mutation rewrites the heap cell, and re-assignment allocates a fresh cell.
-/

namespace IntegrationAdmin

/-- JavaScript-like runtime values: the shapes that reach `extractError` and
the serialized rows sent over the persistence boundary. -/
inductive JSVal where
  | null
  | undefined
  | bool (b : Bool)
  | num (n : Int)
  | str (s : String)
  | arr (elems : List JSVal)
  | obj (fields : List (String × JSVal))

/-- JavaScript truthiness (`!v` is `!truthy v`): `null`, `undefined`, `false`,
`0` and `""` are falsy; arrays and objects are always truthy. -/
def truthy : JSVal → Bool
  | .null => false
  | .undefined => false
  | .bool b => b
  | .num n => n != 0
  | .str s => s != ""
  | .arr _ => true
  | .obj _ => true

/-- Property access `v[k]`: defined keys of object literals; everything else
(including any key of an array or primitive in our model) is `undefined`. -/
def getProp (v : JSVal) (k : String) : JSVal :=
  match v with
  | .obj fs =>
    match fs.find? (fun p => p.1 == k) with
    | some p => p.2
    | none => .undefined
  | _ => .undefined

/-- `Array.isArray`. -/
def isArray : JSVal → Bool
  | .arr _ => true
  | _ => false

/-- Numeric index access `v[i]` on an array value; `undefined` out of range or
on a non-array. -/
def arrIndex (v : JSVal) (i : Nat) : JSVal :=
  match v with
  | .arr xs => xs.getD i .undefined
  | _ => .undefined

/-- JSON string escaping for one character (the escapes relevant to
`JSON.stringify`). -/
def escapeChar (c : Char) : String :=
  if c = '"' then "\\\""
  else if c = '\\' then "\\\\"
  else if c = '\n' then "\\n"
  else if c = '\t' then "\\t"
  else if c = '\r' then "\\r"
  else String.singleton c

/-- JSON string escaping. -/
def escapeString (s : String) : String :=
  String.join (s.toList.map escapeChar)

/-- JSON quoting of a string. -/
def jsonQuote (s : String) : String :=
  "\"" ++ escapeString s ++ "\""

mutual

/-- `JSON.stringify` on our value model: `none` models the `undefined` result
(top-level `undefined`); inside arrays `undefined` serializes as `null`, and
object keys holding `undefined` are omitted. -/
def jsonStringifyVal : JSVal → Option String
  | .undefined => none
  | .null => some "null"
  | .bool b => some (if b then "true" else "false")
  | .num n => some (toString n)
  | .str s => some (jsonQuote s)
  | .arr xs => some ("[" ++ String.intercalate "," (jsonArrElems xs) ++ "]")
  | .obj fs => some ("\x7b" ++ String.intercalate "," (jsonObjEntries fs) ++ "\x7d")

/-- Serialized elements of an array (`undefined` becomes `null`). -/
def jsonArrElems : List JSVal → List String
  | [] => []
  | x :: rest => (jsonStringifyVal x).getD "null" :: jsonArrElems rest

/-- Serialized `key:value` entries of an object (keys with `undefined` values
are dropped). -/
def jsonObjEntries : List (String × JSVal) → List String
  | [] => []
  | (k, v) :: rest =>
    match jsonStringifyVal v with
    | none => jsonObjEntries rest
    | some s => (jsonQuote k ++ ":" ++ s) :: jsonObjEntries rest

end

/-- `extractError` (source lines 381–388): normalizes an arbitrary error value
into the single value stored in `errorMessage`.  Falsy errors yield
`"Unknown error"`; a truthy `error.body.message` is returned verbatim; else an
array-shaped `error.body` whose truthy first entry bears a truthy `message`
yields that message; otherwise the whole error is `JSON.stringify`-ed. -/
def extractError (error : JSVal) : JSVal :=
  if truthy error = false then .str "Unknown error"
  else if truthy (getProp error "body") && truthy (getProp (getProp error "body") "message") then
    getProp (getProp error "body") "message"
  else if isArray (getProp error "body") && truthy (arrIndex (getProp error "body") 0)
          && truthy (getProp (arrIndex (getProp error "body") 0) "message") then
    getProp (arrIndex (getProp error "body") 0) "message"
  else .str ((jsonStringifyVal error).getD "undefined")

/-- SystemConfigDTO rows of the Systems tab (tier 1). -/
structure SystemConfig where
  developerName : String
  label : String
  isActive : Bool
  maxRetries : Int
  deriving Repr, DecidableEq

/-- ObjectConfigDTO rows of the Object Mappings tab (tier 2); `rowId` is the
synthetic identity added client-side for stable list keys. -/
structure ObjectConfig where
  developerName : String
  sObjectName : String
  systemApiName : String
  triggerReason : String
  isActive : Bool
  rowId : String
  deriving Repr, DecidableEq

/-- FieldMapDTO rows of the Field Mappings tab (tier 3); `rowId` as above. -/
structure FieldMap where
  developerName : String
  sObjectName : String
  systemApiName : String
  sourceFieldAPI : String
  targetFieldName : String
  isRequired : Bool
  dataType : String
  rowId : String
  deriving Repr, DecidableEq

/-- Combobox option entries (`{label, value}`). -/
structure LabelValue where
  label : String
  value : String
  deriving Repr, DecidableEq

/-- Entries returned by `getAvailableFields` (`{label, apiName, dataType}`). -/
structure FieldOption where
  label : String
  apiName : String
  dataType : String
  deriving Repr, DecidableEq

/-- The component's reactive state (tracked fields of `IntegrationAdminApp`). -/
structure AdminState where
  systems : List SystemConfig
  systemOptions : List LabelValue
  objectConfigs : List ObjectConfig
  fieldMappings : List FieldMap
  availableFields : List LabelValue
  sObjectOptions : List LabelValue
  selectedSObjectName : Option String
  selectedSystemApiName : Option String
  activeTab : String
  isLoading : Bool
  errorMessage : Option JSVal

/-- JavaScript truthiness of a possibly-undefined string field (`none` models
`undefined`; the empty string is falsy). -/
def truthyOpt : Option String → Bool
  | none => false
  | some s => s != ""

/-- The component's initial state (the tracked-field initializers at the top
of the class). -/
def initialState : AdminState :=
  { systems := [], systemOptions := [], objectConfigs := [], fieldMappings := []
    availableFields := [], sObjectOptions := []
    selectedSObjectName := none, selectedSystemApiName := none
    activeTab := "systems", isLoading := false, errorMessage := none }

/-- Payload of a `saveFieldMappings` call: the active context plus the rows. -/
structure FmPayload where
  sObjectName : String
  systemApiName : String
  mappings : List FieldMap
  deriving Repr, DecidableEq

/-- State updates `handleSaveSystems` performs before awaiting `saveSystems`
(source lines 428–429): show the spinner and clear the error slot. -/
def handleSaveSystemsPre (st : AdminState) : AdminState :=
  { st with isLoading := true, errorMessage := none }

/-- `handleSaveSystems` (source lines 427–437): sets the busy flag, clears the
error, awaits `saveSystems({systems})`; on rejection stores the normalized
error; always clears the busy flag.  The second component is the payload of
the issued persist call. -/
def handleSaveSystems (st : AdminState) (persistResult : Except JSVal Unit) :
    AdminState × Option (List SystemConfig) :=
  let st1 := handleSaveSystemsPre st
  match persistResult with
  | .ok _ => ({ st1 with isLoading := false }, some st1.systems)
  | .error e =>
    ({ st1 with errorMessage := some (extractError e), isLoading := false }, some st1.systems)

/-- State updates `handleSaveObjectConfigs` performs before awaiting
`saveObjectConfigs` (source lines 484–485). -/
def handleSaveObjectConfigsPre (st : AdminState) : AdminState :=
  { st with isLoading := true, errorMessage := none }

/-- `handleSaveObjectConfigs` (source lines 483–493): sets the busy flag,
clears the error, awaits `saveObjectConfigs({configs})` with the whole tier-2
draft; on rejection stores the normalized error; always clears the busy flag.
No validation of any kind precedes the call. -/
def handleSaveObjectConfigs (st : AdminState) (persistResult : Except JSVal Unit) :
    AdminState × Option (List ObjectConfig) :=
  let st1 := handleSaveObjectConfigsPre st
  match persistResult with
  | .ok _ => ({ st1 with isLoading := false }, some st1.objectConfigs)
  | .error e =>
    ({ st1 with errorMessage := some (extractError e), isLoading := false },
     some st1.objectConfigs)

/-- State updates `handleSaveFieldMappings` performs after its context guard
and before awaiting `saveFieldMappings` (source lines 577–578). -/
def handleSaveFieldMappingsPre (st : AdminState) : AdminState :=
  { st with isLoading := true, errorMessage := none }

/-- `handleSaveFieldMappings` (source lines 574–590): returns immediately when
either half of the active context is falsy; otherwise sets the busy flag,
clears the error, awaits `saveFieldMappings` with the context and the whole
tier-3 draft; on rejection stores the normalized error; clears the busy
flag.  No uniqueness validation precedes the call. -/
def handleSaveFieldMappings (st : AdminState) (persistResult : Except JSVal Unit) :
    AdminState × Option FmPayload :=
  if !truthyOpt st.selectedSObjectName || !truthyOpt st.selectedSystemApiName then
    (st, none)
  else
    let st1 := handleSaveFieldMappingsPre st
    let payload : FmPayload :=
      { sObjectName := st.selectedSObjectName.getD ""
        systemApiName := st.selectedSystemApiName.getD ""
        mappings := st.fieldMappings }
    match persistResult with
    | .ok _ => ({ st1 with isLoading := false }, some payload)
    | .error e =>
      ({ st1 with errorMessage := some (extractError e), isLoading := false }, some payload)

/-- State updates `handleEditFields` performs before awaiting the joined
fetches (source lines 504–508): the chosen row's pair becomes the active
context, the Field Mappings tab is activated, the spinner shown and the error
slot cleared — all prior to any fetch settling. -/
def handleEditFieldsPre (st : AdminState) (cfg : ObjectConfig) : AdminState :=
  { st with
    selectedSObjectName := some cfg.sObjectName
    selectedSystemApiName := some cfg.systemApiName
    activeTab := "fields", isLoading := true, errorMessage := none }

/-- Row transformation applied to each fetched FieldMapping (source lines
529–532): keep every stored field and assign `rowId` as the row's
`developerName` when truthy, else a synthetic `tmp-fm-…` identifier built from
`Date.now()` and `Math.random()` (here: `now` and the per-row draw `rnd i`). -/
def fmWithRowId (now : Nat) (rnd : Nat → String) (p : Nat × FieldMap) : FieldMap :=
  { p.2 with
    rowId := if p.2.developerName != "" then p.2.developerName
             else "tmp-fm-" ++ toString now ++ "-" ++ rnd p.1 }

/-- `handleEditFields` (source lines 498–538): guard on a present, in-range
row index; eagerly switch context/tab/busy/error; await `Promise.all` of
`getAvailableFields` and `getFieldMappings` (modelled as one `Except` carrying
both results or the first rejection); on success rebuild `availableFields` as
`label (apiName)` options and replace the tier-3 draft with the fetched rows
re-keyed by `fmWithRowId`; on rejection only store the normalized error.  The
busy flag is cleared on both paths.  (The source's `mappings && mappings.length
? mappings : []` guard is the identity on a total list value.) -/
def handleEditFields (st : AdminState) (idx : Option Nat)
    (fetched : Except JSVal (List FieldOption × List FieldMap))
    (now : Nat) (rnd : Nat → String) : AdminState :=
  match idx with
  | none => st
  | some i =>
    match st.objectConfigs[i]? with
    | none => st
    | some cfg =>
      let st1 := handleEditFieldsPre st cfg
      match fetched with
      | .ok (fields, mappings) =>
        { st1 with
          availableFields := fields.map (fun f =>
            { label := f.label ++ " (" ++ f.apiName ++ ")", value := f.apiName })
          fieldMappings := mappings.enum.map (fmWithRowId now rnd)
          isLoading := false }
      | .error e =>
        { st1 with errorMessage := some (extractError e), isLoading := false }

/-- `addFieldMapping` (source lines 541–556): a no-op when either half of the
active context is falsy; otherwise appends a blank row inheriting the context,
with `dataType` defaulted to `"String"` and a synthetic `rowId` built from
`Date.now()` and the current draft length. -/
def addFieldMapping (st : AdminState) (now : Nat) : AdminState :=
  if !truthyOpt st.selectedSObjectName || !truthyOpt st.selectedSystemApiName then
    st
  else
    { st with
      fieldMappings := st.fieldMappings ++
        [{ developerName := ""
           sObjectName := st.selectedSObjectName.getD ""
           systemApiName := st.selectedSystemApiName.getD ""
           sourceFieldAPI := "", targetFieldName := "", isRequired := false
           dataType := "String"
           rowId := "tmp-fm-" ++ toString now ++ "-" ++ toString st.fieldMappings.length }] }

/-- Serialization of a tier-2 draft row as it crosses the wire to
`saveObjectConfigs`: every own property of the row object — `rowId`
included — is part of the serialized record. -/
def objectConfigToJS (c : ObjectConfig) : JSVal :=
  .obj [("developerName", .str c.developerName), ("sObjectName", .str c.sObjectName),
        ("systemApiName", .str c.systemApiName), ("triggerReason", .str c.triggerReason),
        ("isActive", .bool c.isActive), ("rowId", .str c.rowId)]

/-- Serialization of a tier-3 draft row as it crosses the wire to
`saveFieldMappings`; again `rowId` is an own property of the row object. -/
def fieldMapToJS (m : FieldMap) : JSVal :=
  .obj [("developerName", .str m.developerName), ("sObjectName", .str m.sObjectName),
        ("systemApiName", .str m.systemApiName), ("sourceFieldAPI", .str m.sourceFieldAPI),
        ("targetFieldName", .str m.targetFieldName), ("isRequired", .bool m.isRequired),
        ("dataType", .str m.dataType), ("rowId", .str m.rowId)]

/-- Whether a serialized object bears the key `k`. -/
def hasKey (v : JSVal) (k : String) : Bool :=
  match v with
  | .obj fs => fs.any (fun p => p.1 == k)
  | _ => false

/-! ### Heap model for the inline-edit handlers

`handleSystemChange`, `handleObjectConfigChange` and `handleFieldMappingChange`
assign through `this.<collection>[idx][field] = value`, so object identity is
observable: the collection array is *not* replaced.  We model a heap of
allocated arrays of row objects; each collection field of the component holds
the heap index of its current array.  In-place mutation rewrites the heap cell
in place; only a re-assignment of the field (as the add/load/save handlers do)
would allocate a new cell and move the field's index. -/

/-- A JavaScript row object: an ordered association list of properties. -/
abbrev JSObj := List (String × JSVal)

/-- Property assignment `o[k] = v`: overwrite in place when the key exists,
append otherwise. -/
def setProp (o : JSObj) (k : String) (v : JSVal) : JSObj :=
  if o.any (fun p => p.1 == k) then
    o.map (fun p => if p.1 == k then (k, v) else p)
  else o ++ [(k, v)]

/-- Component state for the inline-edit handlers: a heap of allocated arrays
and, per collection, the heap index of the array the field currently holds. -/
structure RefState where
  heap : List (List JSObj)
  systemsRef : Nat
  objectConfigsRef : Nat
  fieldMappingsRef : Nat

/-- The array a heap index currently denotes. -/
def arrAt (st : RefState) (r : Nat) : List JSObj :=
  st.heap.getD r []

/-- The value an inline-edit handler reads off its originating control:
`checked` for checkbox inputs, the string `value` otherwise. -/
def jsInputValue (isCheckbox checked : Bool) (value : String) : JSVal :=
  if isCheckbox then .bool checked else .str value

/-- `handleSystemChange` (source lines 412–424): bail out when `data-index` or
`data-field` is absent; read the checkbox/value off the control; when the
index denotes an existing row, assign the field on that row in place — the
`systems` field keeps pointing at the same array. -/
def handleSystemChange (st : RefState) (idx : Option Nat) (field : Option String)
    (isCheckbox checked : Bool) (value : String) : RefState :=
  match idx, field with
  | some i, some f =>
    let arr := arrAt st st.systemsRef
    if i < arr.length then
      let newArr := arr.set i (setProp (arr.getD i []) f (jsInputValue isCheckbox checked value))
      { st with heap := st.heap.set st.systemsRef newArr }
    else st
  | _, _ => st

/-- `handleObjectConfigChange` (source lines 442–454): same shape as
`handleSystemChange`, over the `objectConfigs` collection. -/
def handleObjectConfigChange (st : RefState) (idx : Option Nat) (field : Option String)
    (isCheckbox checked : Bool) (value : String) : RefState :=
  match idx, field with
  | some i, some f =>
    let arr := arrAt st st.objectConfigsRef
    if i < arr.length then
      let newArr := arr.set i (setProp (arr.getD i []) f (jsInputValue isCheckbox checked value))
      { st with heap := st.heap.set st.objectConfigsRef newArr }
    else st
  | _, _ => st

/-- `handleFieldMappingChange` (source lines 559–571): same shape, over the
`fieldMappings` collection. -/
def handleFieldMappingChange (st : RefState) (idx : Option Nat) (field : Option String)
    (isCheckbox checked : Bool) (value : String) : RefState :=
  match idx, field with
  | some i, some f =>
    let arr := arrAt st st.fieldMappingsRef
    if i < arr.length then
      let newArr := arr.set i (setProp (arr.getD i []) f (jsInputValue isCheckbox checked value))
      { st with heap := st.heap.set st.fieldMappingsRef newArr }
    else st
  | _, _ => st

/-! ### Concrete fixtures -/

/-- A tier-2 draft holding two rows that share the non-empty natural-key pair
`("Opportunity", "BILLING")`. -/
def dupObjState : AdminState :=
  { initialState with objectConfigs := [
      { developerName := "", sObjectName := "Opportunity", systemApiName := "BILLING",
        triggerReason := "", isActive := true, rowId := "tmp-obj-1-0" },
      { developerName := "", sObjectName := "Opportunity", systemApiName := "BILLING",
        triggerReason := "", isActive := true, rowId := "tmp-obj-1-1" }] }

/-- An active `("Opportunity", "BILLING")` context whose tier-3 draft holds two
rows sharing the non-empty `sourceFieldAPI` `"Amount"`. -/
def dupFmState : AdminState :=
  { initialState with
    selectedSObjectName := some "Opportunity"
    selectedSystemApiName := some "BILLING"
    fieldMappings := [
      { developerName := "", sObjectName := "Opportunity", systemApiName := "BILLING",
        sourceFieldAPI := "Amount", targetFieldName := "amt", isRequired := false,
        dataType := "String", rowId := "tmp-fm-1-0" },
      { developerName := "", sObjectName := "Opportunity", systemApiName := "BILLING",
        sourceFieldAPI := "Amount", targetFieldName := "amount2", isRequired := true,
        dataType := "String", rowId := "tmp-fm-1-1" }] }

/-! ### C1 — duplicate `(sObjectName, systemApiName)` pairs at save time -/

/-- C1, counterexample: on a tier-2 draft with two rows sharing the non-empty
pair `("Opportunity", "BILLING")`, `handleSaveObjectConfigs` does *not* reject
the save: it issues the `saveObjectConfigs` call carrying the whole draft, and
(the persist succeeding) surfaces no duplicate-mapping error. -/
theorem handleSaveObjectConfigs_duplicate_pair_not_rejected :
    (dupObjState.objectConfigs.map fun c => (c.sObjectName, c.systemApiName))
      = [("Opportunity", "BILLING"), ("Opportunity", "BILLING")] ∧
    ("Opportunity" ≠ "" ∧ "BILLING" ≠ "") ∧
    (handleSaveObjectConfigs dupObjState (Except.ok ())).2 ≠ none ∧
    (handleSaveObjectConfigs dupObjState (Except.ok ())).1.errorMessage = none :=
  ⟨rfl, ⟨by decide, by decide⟩, by decide, rfl⟩

/-- C1, amended: `handleSaveObjectConfigs` performs no uniqueness validation.
Even when the tier-2 draft holds two distinct rows with the same non-empty
`(sObjectName, systemApiName)` pair, the save is not rejected: the
`saveObjectConfigs` call is issued with the entire draft, and no
duplicate-mapping error is surfaced (on a successful persist the error slot
stays clear). -/
theorem handleSaveObjectConfigs_no_duplicate_validation
    (st : AdminState) (pr : Except JSVal Unit) (i j : Nat) (ci cj : ObjectConfig)
    (hij : i ≠ j)
    (hci : st.objectConfigs[i]? = some ci) (hcj : st.objectConfigs[j]? = some cj)
    (hobj : ci.sObjectName = cj.sObjectName) (hsys : ci.systemApiName = cj.systemApiName)
    (hobjne : ci.sObjectName ≠ "") (hsysne : ci.systemApiName ≠ "") :
    (handleSaveObjectConfigs st pr).2 = some st.objectConfigs ∧
    (handleSaveObjectConfigs st (Except.ok ())).1.errorMessage = none := by
  refine ⟨?_, rfl⟩
  cases pr <;> rfl

/-- C1, witness: the amended theorem applied to the concrete duplicate draft. -/
theorem handleSaveObjectConfigs_no_duplicate_validation_witness :
    (handleSaveObjectConfigs dupObjState (Except.ok ())).2 = some dupObjState.objectConfigs ∧
    (handleSaveObjectConfigs dupObjState (Except.ok ())).1.errorMessage = none :=
  handleSaveObjectConfigs_no_duplicate_validation dupObjState (Except.ok ()) 0 1
    { developerName := "", sObjectName := "Opportunity", systemApiName := "BILLING",
      triggerReason := "", isActive := true, rowId := "tmp-obj-1-0" }
    { developerName := "", sObjectName := "Opportunity", systemApiName := "BILLING",
      triggerReason := "", isActive := true, rowId := "tmp-obj-1-1" }
    (by decide) rfl rfl rfl rfl (by decide) (by decide)

/-! ### C2 — duplicate `sourceFieldAPI` in the active context at save time -/

/-- C2, counterexample: with an active context and a tier-3 draft holding two
rows sharing the non-empty `sourceFieldAPI` `"Amount"`,
`handleSaveFieldMappings` does *not* reject the save: the `saveFieldMappings`
call is issued, and (the persist succeeding) no error is surfaced. -/
theorem handleSaveFieldMappings_duplicate_source_not_rejected :
    (dupFmState.fieldMappings.map fun m => m.sourceFieldAPI) = ["Amount", "Amount"] ∧
    "Amount" ≠ "" ∧
    truthyOpt dupFmState.selectedSObjectName = true ∧
    truthyOpt dupFmState.selectedSystemApiName = true ∧
    (handleSaveFieldMappings dupFmState (Except.ok ())).2 ≠ none ∧
    (handleSaveFieldMappings dupFmState (Except.ok ())).1.errorMessage = none :=
  ⟨rfl, by decide, rfl, rfl, by decide, rfl⟩

/-- C2, amended: `handleSaveFieldMappings` performs no uniqueness validation.
With a truthy active context, even when the tier-3 draft holds two distinct
rows with the same non-empty `sourceFieldAPI`, the save is not rejected: the
`saveFieldMappings` call is issued with the active context and the entire
draft, and on a successful persist no error is surfaced. -/
theorem handleSaveFieldMappings_no_duplicate_validation
    (st : AdminState) (pr : Except JSVal Unit) (i j : Nat) (mi mj : FieldMap)
    (hctx1 : truthyOpt st.selectedSObjectName = true)
    (hctx2 : truthyOpt st.selectedSystemApiName = true)
    (hij : i ≠ j)
    (hmi : st.fieldMappings[i]? = some mi) (hmj : st.fieldMappings[j]? = some mj)
    (hdup : mi.sourceFieldAPI = mj.sourceFieldAPI) (hne : mi.sourceFieldAPI ≠ "") :
    (handleSaveFieldMappings st pr).2 =
      some { sObjectName := st.selectedSObjectName.getD ""
             systemApiName := st.selectedSystemApiName.getD ""
             mappings := st.fieldMappings } ∧
    (handleSaveFieldMappings st (Except.ok ())).1.errorMessage = none := by
  have hguard : (!truthyOpt st.selectedSObjectName || !truthyOpt st.selectedSystemApiName)
      = false := by
    rw [hctx1, hctx2]; rfl
  constructor
  · unfold handleSaveFieldMappings
    rw [hguard]
    cases pr <;> rfl
  · unfold handleSaveFieldMappings
    rw [hguard]
    rfl

/-- C2, witness: the amended theorem applied to the concrete duplicate draft. -/
theorem handleSaveFieldMappings_no_duplicate_validation_witness :
    (handleSaveFieldMappings dupFmState (Except.ok ())).2 =
      some { sObjectName := dupFmState.selectedSObjectName.getD ""
             systemApiName := dupFmState.selectedSystemApiName.getD ""
             mappings := dupFmState.fieldMappings } ∧
    (handleSaveFieldMappings dupFmState (Except.ok ())).1.errorMessage = none :=
  handleSaveFieldMappings_no_duplicate_validation dupFmState (Except.ok ()) 0 1
    { developerName := "", sObjectName := "Opportunity", systemApiName := "BILLING",
      sourceFieldAPI := "Amount", targetFieldName := "amt", isRequired := false,
      dataType := "String", rowId := "tmp-fm-1-0" }
    { developerName := "", sObjectName := "Opportunity", systemApiName := "BILLING",
      sourceFieldAPI := "Amount", targetFieldName := "amount2", isRequired := true,
      dataType := "String", rowId := "tmp-fm-1-1" }
    rfl rfl (by decide) rfl rfl rfl (by decide)

/-! ### C3 — derived `dataType` reconciliation on context resolution -/

/-- A state holding one tier-2 rule for `("Opportunity", "BILLING")`. -/
def c3State : AdminState :=
  { initialState with objectConfigs := [
      { developerName := "OppBilling", sObjectName := "Opportunity", systemApiName := "BILLING",
        triggerReason := "", isActive := true, rowId := "OppBilling" }] }

/-- A describe result mapping `"Amount"` to the data type `"Number"`. -/
def c3Fields : List FieldOption :=
  [{ label := "Amount", apiName := "Amount", dataType := "Number" }]

/-- One stored mapping for `"Amount"` whose stored data type is `"Legacy"`. -/
def c3Mappings : List FieldMap :=
  [{ developerName := "FM1", sObjectName := "Opportunity", systemApiName := "BILLING",
     sourceFieldAPI := "Amount", targetFieldName := "amt", isRequired := false,
     dataType := "Legacy", rowId := "" }]

/-- C3, counterexample: the describe result maps `"Amount"` to `"Number"`, the
stored row carries `dataType = "Legacy"`, and after a successful
`handleEditFields` the resolved row's `dataType` is still `"Legacy"` — the
code never overwrites `dataType` from the fetched describe lookup. -/
theorem handleEditFields_dataType_not_rederived :
    (c3Fields.map fun f => (f.apiName, f.dataType)) = [("Amount", "Number")] ∧
    (c3Mappings.map fun m => (m.sourceFieldAPI, m.dataType)) = [("Amount", "Legacy")] ∧
    ((handleEditFields c3State (some 0) (Except.ok (c3Fields, c3Mappings)) 7
        (fun _ => "x")).fieldMappings.map fun m => m.dataType) = ["Legacy"] ∧
    "Legacy" ≠ "Number" :=
  ⟨rfl, rfl, rfl, by decide⟩

/-- Mapping over an enumerated list with a function that an observation `g`
cannot distinguish from the underlying element gives the same observations as
mapping `g` over the original list. -/
theorem map_map_enumFrom_eq {α β : Type} (f : Nat × α → α) (g : α → β)
    (h : ∀ p, g (f p) = g p.2) :
    ∀ (n : Nat) (l : List α), (((l.enumFrom n).map f).map g) = l.map g := by
  intro n l
  induction l generalizing n with
  | nil => rfl
  | cons x xs ih =>
    simp only [List.enumFrom, List.map_cons, List.map_map, h]
    have := ih (n + 1)
    simp only [List.map_map] at this
    rw [this]

/-- C3, amended: `handleEditFields` never consults the describe result when
rebuilding the tier-3 draft.  On success every fetched FieldMapping row keeps
each of its stored fields — `dataType` included, whether or not its
`sourceFieldAPI` appears in the describe result — and only `rowId` is
(re)assigned. -/
theorem handleEditFields_retains_stored_dataType
    (st : AdminState) (i : Nat) (cfg : ObjectConfig)
    (fields : List FieldOption) (mappings : List FieldMap) (now : Nat) (rnd : Nat → String)
    (hcfg : st.objectConfigs[i]? = some cfg) :
    ((handleEditFields st (some i) (Except.ok (fields, mappings)) now rnd).fieldMappings.map
        fun m => m.dataType) = mappings.map (fun m => m.dataType) ∧
    ((handleEditFields st (some i) (Except.ok (fields, mappings)) now rnd).fieldMappings.map
        fun m => ({ m with rowId := "" } : FieldMap))
      = mappings.map fun m => { m with rowId := "" } := by
  simp only [handleEditFields, hcfg]
  constructor
  · exact map_map_enumFrom_eq (fmWithRowId now rnd) (fun m => m.dataType) (fun _ => rfl)
      0 mappings
  · exact map_map_enumFrom_eq (fmWithRowId now rnd)
      (fun m => ({ m with rowId := "" } : FieldMap)) (fun _ => rfl) 0 mappings

/-- C3, witness: the amended theorem at the concrete describe result and
stored row. -/
theorem handleEditFields_retains_stored_dataType_witness :
    ((handleEditFields c3State (some 0) (Except.ok (c3Fields, c3Mappings)) 7
        (fun _ => "x")).fieldMappings.map fun m => m.dataType)
      = c3Mappings.map (fun m => m.dataType) ∧
    ((handleEditFields c3State (some 0) (Except.ok (c3Fields, c3Mappings)) 7
        (fun _ => "x")).fieldMappings.map fun m => ({ m with rowId := "" } : FieldMap))
      = c3Mappings.map fun m => { m with rowId := "" } :=
  handleEditFields_retains_stored_dataType c3State 0
    { developerName := "OppBilling", sObjectName := "Opportunity", systemApiName := "BILLING",
      triggerReason := "", isActive := true, rowId := "OppBilling" }
    c3Fields c3Mappings 7 (fun _ => "x") rfl

/-! ### C4 — context switching versus fetch failure -/

/-- C4, counterexample: starting from a state with no active context, a
`handleEditFields` whose joined fetch *rejects* nevertheless leaves the active
context switched to the chosen row's pair — the context is assigned before the
fetches are awaited, not after they succeed. -/
theorem handleEditFields_context_switched_on_failure :
    c3State.selectedSObjectName = none ∧
    ¬ ((handleEditFields c3State (some 0) (Except.error (.str "boom")) 7
          (fun _ => "x")).selectedSObjectName = c3State.selectedSObjectName ∧
       (handleEditFields c3State (some 0) (Except.error (.str "boom")) 7
          (fun _ => "x")).selectedSystemApiName = c3State.selectedSystemApiName) ∧
    (handleEditFields c3State (some 0) (Except.error (.str "boom")) 7
        (fun _ => "x")).selectedSObjectName = some "Opportunity" ∧
    (handleEditFields c3State (some 0) (Except.error (.str "boom")) 7
        (fun _ => "x")).selectedSystemApiName = some "BILLING" := by
  refine ⟨rfl, ?_, rfl, rfl⟩
  intro h
  exact Option.noConfusion h.1

/-- C4, amended: when either fetch rejects, `handleEditFields` keeps the
tier-3 draft and `availableFields` at their prior values, surfaces the
normalized error and clears the busy flag — but the active context (and the
active tab) have already been switched to the chosen row's pair before the
fetches were issued, so they do *not* retain their prior values. -/
theorem handleEditFields_failure_keeps_draft_but_not_context
    (st : AdminState) (i : Nat) (cfg : ObjectConfig) (e : JSVal)
    (now : Nat) (rnd : Nat → String)
    (hcfg : st.objectConfigs[i]? = some cfg) :
    (handleEditFields st (some i) (Except.error e) now rnd).fieldMappings
        = st.fieldMappings ∧
    (handleEditFields st (some i) (Except.error e) now rnd).availableFields
        = st.availableFields ∧
    (handleEditFields st (some i) (Except.error e) now rnd).selectedSObjectName
        = some cfg.sObjectName ∧
    (handleEditFields st (some i) (Except.error e) now rnd).selectedSystemApiName
        = some cfg.systemApiName ∧
    (handleEditFields st (some i) (Except.error e) now rnd).activeTab = "fields" ∧
    (handleEditFields st (some i) (Except.error e) now rnd).isLoading = false ∧
    (handleEditFields st (some i) (Except.error e) now rnd).errorMessage
        = some (extractError e) := by
  simp only [handleEditFields, hcfg]
  refine ⟨?_, ?_, ?_, ?_, ?_, ?_, ?_⟩ <;> trivial

/-- C4, witness: the amended theorem at a concrete rejected fetch. -/
theorem handleEditFields_failure_keeps_draft_but_not_context_witness :
    (handleEditFields c3State (some 0) (Except.error (.str "boom")) 7
        (fun _ => "x")).fieldMappings = c3State.fieldMappings ∧
    (handleEditFields c3State (some 0) (Except.error (.str "boom")) 7
        (fun _ => "x")).availableFields = c3State.availableFields ∧
    (handleEditFields c3State (some 0) (Except.error (.str "boom")) 7
        (fun _ => "x")).selectedSObjectName = some "Opportunity" ∧
    (handleEditFields c3State (some 0) (Except.error (.str "boom")) 7
        (fun _ => "x")).selectedSystemApiName = some "BILLING" ∧
    (handleEditFields c3State (some 0) (Except.error (.str "boom")) 7
        (fun _ => "x")).activeTab = "fields" ∧
    (handleEditFields c3State (some 0) (Except.error (.str "boom")) 7
        (fun _ => "x")).isLoading = false ∧
    (handleEditFields c3State (some 0) (Except.error (.str "boom")) 7
        (fun _ => "x")).errorMessage = some (extractError (.str "boom")) :=
  handleEditFields_failure_keeps_draft_but_not_context c3State 0
    { developerName := "OppBilling", sObjectName := "Opportunity", systemApiName := "BILLING",
      triggerReason := "", isActive := true, rowId := "OppBilling" }
    (.str "boom") 7 (fun _ => "x") rfl

/-! ### C5 — synthetic row identity versus the persistence payload -/

/-- An active context with one tier-2 row and one tier-3 row, both carrying
synthetic `rowId`s. -/
def c5State : AdminState :=
  { initialState with
    selectedSObjectName := some "Opportunity"
    selectedSystemApiName := some "BILLING"
    objectConfigs := [
      { developerName := "", sObjectName := "Opportunity", systemApiName := "BILLING",
        triggerReason := "", isActive := true, rowId := "tmp-obj-9-0" }]
    fieldMappings := [
      { developerName := "", sObjectName := "Opportunity", systemApiName := "BILLING",
        sourceFieldAPI := "Amount", targetFieldName := "amt", isRequired := false,
        dataType := "String", rowId := "tmp-fm-9-0" }] }

/-- C5, counterexample: on a validation-free save (every save is), the rows
handed to `saveObjectConfigs` still carry the `rowId` key — the synthetic row
identity is *not* stripped before the persistence boundary. -/
theorem savePayload_rowId_not_stripped :
    ¬ (∀ r ∈ (handleSaveObjectConfigs c5State (Except.ok ())).2.getD [],
        hasKey (objectConfigToJS r) "rowId" = false) ∧
    (((handleSaveObjectConfigs c5State (Except.ok ())).2.getD []).map
        fun r => (hasKey (objectConfigToJS r) "rowId",
                  (jsonStringifyVal (getProp (objectConfigToJS r) "rowId")).getD ""))
      = [(true, "\"tmp-obj-9-0\"")] :=
  ⟨by decide, rfl⟩

/-- C5, amended: the save coordinators strip nothing.  `handleSaveObjectConfigs`
hands `saveObjectConfigs` the tier-2 draft verbatim, `handleSaveFieldMappings`
(under a truthy context) hands `saveFieldMappings` the tier-3 draft verbatim,
and every serialized draft row still bears the `rowId` key. -/
theorem savePayloads_sent_verbatim_with_rowId
    (st : AdminState) (pr : Except JSVal Unit) :
    (handleSaveObjectConfigs st pr).2 = some st.objectConfigs ∧
    (∀ c : ObjectConfig, hasKey (objectConfigToJS c) "rowId" = true) ∧
    (∀ m : FieldMap, hasKey (fieldMapToJS m) "rowId" = true) ∧
    (truthyOpt st.selectedSObjectName = true → truthyOpt st.selectedSystemApiName = true →
      ((handleSaveFieldMappings st pr).2.map fun p => p.mappings) = some st.fieldMappings) := by
  refine ⟨by cases pr <;> rfl, fun c => rfl, fun m => rfl, fun h1 h2 => ?_⟩
  have hguard : (!truthyOpt st.selectedSObjectName || !truthyOpt st.selectedSystemApiName)
      = false := by rw [h1, h2]; rfl
  unfold handleSaveFieldMappings
  rw [hguard]
  cases pr <;> rfl

/-- C5, witness: the amended theorem at the concrete drafts of `c5State`. -/
theorem savePayloads_sent_verbatim_with_rowId_witness :
    (handleSaveObjectConfigs c5State (Except.ok ())).2 = some c5State.objectConfigs ∧
    ((handleSaveFieldMappings c5State (Except.ok ())).2.map fun p => p.mappings)
      = some c5State.fieldMappings :=
  ⟨(savePayloads_sent_verbatim_with_rowId c5State (Except.ok ())).1,
   (savePayloads_sent_verbatim_with_rowId c5State (Except.ok ())).2.2.2 rfl rfl⟩

/-! ### C6 — inline edits and collection identity -/

/-- Getting the element just written by `List.set`. -/
theorem listGetD_set_self {α : Type} (l : List α) (i : Nat) (a d : α) (h : i < l.length) :
    (l.set i a).getD i d = a := by
  simp [List.getD, List.getElem?_set_self, h]

/-- A heap with one one-row `systems` array (reference 0) and empty arrays for
the other two collections (references 1 and 2). -/
def refSt : RefState :=
  { heap := [[[("label", .str "A"), ("isActive", .bool true)]], [], []]
    systemsRef := 0, objectConfigsRef := 1, fieldMappingsRef := 2 }

/-- C6, counterexample: editing `label` of row 0 through `handleSystemChange`
keeps the `systems` field pointing at the *same* array (no new collection is
produced), and the previously held collection object itself now carries the
edit — refuting "new collection, original untouched".  The serialized views
exhibit the in-place change of the old object. -/
theorem handleSystemChange_mutates_shared_collection :
    (handleSystemChange refSt (some 0) (some "label") false false "B").systemsRef
      = refSt.systemsRef ∧
    ¬ ((handleSystemChange refSt (some 0) (some "label") false false "B").systemsRef
        ≠ refSt.systemsRef ∧
       arrAt (handleSystemChange refSt (some 0) (some "label") false false "B")
          refSt.systemsRef = arrAt refSt refSt.systemsRef) ∧
    (((arrAt refSt refSt.systemsRef).getD 0 []).map
        fun p => (p.1, (jsonStringifyVal p.2).getD ""))
      = [("label", "\"A\""), ("isActive", "true")] ∧
    (((arrAt (handleSystemChange refSt (some 0) (some "label") false false "B")
          refSt.systemsRef).getD 0 []).map
        fun p => (p.1, (jsonStringifyVal p.2).getD ""))
      = [("label", "\"B\""), ("isActive", "true")] :=
  ⟨rfl, fun h => h.1 rfl, rfl, rfl⟩

/-- C6, amended: each inline-edit handler applied to a valid row index mutates
the row *in place*: the edited tier's collection reference is unchanged (so
reference comparison cannot detect the edit), no new array is allocated
(heap size unchanged, the other tiers' references untouched), and the array
the reference already denoted now holds row `i` with the single field
assigned. -/
theorem inline_edit_handlers_mutate_in_place :
    (∀ (st : RefState) (i : Nat) (f : String) (cb chk : Bool) (v : String),
      i < (arrAt st st.systemsRef).length →
      (handleSystemChange st (some i) (some f) cb chk v).systemsRef = st.systemsRef ∧
      (handleSystemChange st (some i) (some f) cb chk v).objectConfigsRef
        = st.objectConfigsRef ∧
      (handleSystemChange st (some i) (some f) cb chk v).fieldMappingsRef
        = st.fieldMappingsRef ∧
      (handleSystemChange st (some i) (some f) cb chk v).heap.length = st.heap.length ∧
      arrAt (handleSystemChange st (some i) (some f) cb chk v) st.systemsRef
        = (arrAt st st.systemsRef).set i
            (setProp ((arrAt st st.systemsRef).getD i []) f (jsInputValue cb chk v))) ∧
    (∀ (st : RefState) (i : Nat) (f : String) (cb chk : Bool) (v : String),
      i < (arrAt st st.objectConfigsRef).length →
      (handleObjectConfigChange st (some i) (some f) cb chk v).objectConfigsRef
        = st.objectConfigsRef ∧
      (handleObjectConfigChange st (some i) (some f) cb chk v).systemsRef = st.systemsRef ∧
      (handleObjectConfigChange st (some i) (some f) cb chk v).fieldMappingsRef
        = st.fieldMappingsRef ∧
      (handleObjectConfigChange st (some i) (some f) cb chk v).heap.length = st.heap.length ∧
      arrAt (handleObjectConfigChange st (some i) (some f) cb chk v) st.objectConfigsRef
        = (arrAt st st.objectConfigsRef).set i
            (setProp ((arrAt st st.objectConfigsRef).getD i []) f (jsInputValue cb chk v))) ∧
    (∀ (st : RefState) (i : Nat) (f : String) (cb chk : Bool) (v : String),
      i < (arrAt st st.fieldMappingsRef).length →
      (handleFieldMappingChange st (some i) (some f) cb chk v).fieldMappingsRef
        = st.fieldMappingsRef ∧
      (handleFieldMappingChange st (some i) (some f) cb chk v).systemsRef = st.systemsRef ∧
      (handleFieldMappingChange st (some i) (some f) cb chk v).objectConfigsRef
        = st.objectConfigsRef ∧
      (handleFieldMappingChange st (some i) (some f) cb chk v).heap.length = st.heap.length ∧
      arrAt (handleFieldMappingChange st (some i) (some f) cb chk v) st.fieldMappingsRef
        = (arrAt st st.fieldMappingsRef).set i
            (setProp ((arrAt st st.fieldMappingsRef).getD i []) f (jsInputValue cb chk v))) := by
  refine ⟨?_, ?_, ?_⟩ <;>
  · intro st i f cb chk v h
    have hr : ∀ r : Nat, i < (arrAt st r).length → r < st.heap.length := by
      intro r hir
      by_contra hge
      push_neg at hge
      have hz : arrAt st r = [] := List.getD_eq_default st.heap [] hge
      rw [hz] at hir
      exact Nat.not_lt_zero i hir
    first
    | · simp only [handleSystemChange]
        rw [if_pos h]
        refine ⟨rfl, rfl, rfl, List.length_set _ _ _, ?_⟩
        exact listGetD_set_self st.heap st.systemsRef _ [] (hr st.systemsRef h)
    | · simp only [handleObjectConfigChange]
        rw [if_pos h]
        refine ⟨rfl, rfl, rfl, List.length_set _ _ _, ?_⟩
        exact listGetD_set_self st.heap st.objectConfigsRef _ [] (hr st.objectConfigsRef h)
    | · simp only [handleFieldMappingChange]
        rw [if_pos h]
        refine ⟨rfl, rfl, rfl, List.length_set _ _ _, ?_⟩
        exact listGetD_set_self st.heap st.fieldMappingsRef _ [] (hr st.fieldMappingsRef h)

/-- C6, witness: the in-place-mutation theorem at the concrete one-row heap. -/
theorem inline_edit_handlers_mutate_in_place_witness :
    (handleSystemChange refSt (some 0) (some "label") false false "B").systemsRef
      = refSt.systemsRef ∧
    (handleSystemChange refSt (some 0) (some "label") false false "B").objectConfigsRef
      = refSt.objectConfigsRef ∧
    (handleSystemChange refSt (some 0) (some "label") false false "B").fieldMappingsRef
      = refSt.fieldMappingsRef ∧
    (handleSystemChange refSt (some 0) (some "label") false false "B").heap.length
      = refSt.heap.length ∧
    arrAt (handleSystemChange refSt (some 0) (some "label") false false "B") refSt.systemsRef
      = (arrAt refSt refSt.systemsRef).set 0
          (setProp ((arrAt refSt refSt.systemsRef).getD 0 []) "label"
            (jsInputValue false false "B")) :=
  inline_edit_handlers_mutate_in_place.1 refSt 0 "label" false false "B" (by decide)

/-! ### C7 — persistence rejection leaves the draft intact -/

/-- C7: whenever a persist call rejects with `e`, each save handler leaves its
draft collection exactly as edited, surfaces the normalized rejection as the
single error message, and clears the busy flag.  (For `handleSaveFieldMappings`
a call is only issued under a truthy context, whence the guard hypotheses.) -/
theorem saves_on_reject_preserve_draft (st : AdminState) (e : JSVal) :
    ((handleSaveSystems st (Except.error e)).1.systems = st.systems ∧
     (handleSaveSystems st (Except.error e)).1.errorMessage = some (extractError e) ∧
     (handleSaveSystems st (Except.error e)).1.isLoading = false) ∧
    ((handleSaveObjectConfigs st (Except.error e)).1.objectConfigs = st.objectConfigs ∧
     (handleSaveObjectConfigs st (Except.error e)).1.errorMessage = some (extractError e) ∧
     (handleSaveObjectConfigs st (Except.error e)).1.isLoading = false) ∧
    (truthyOpt st.selectedSObjectName = true → truthyOpt st.selectedSystemApiName = true →
      (handleSaveFieldMappings st (Except.error e)).1.fieldMappings = st.fieldMappings ∧
      (handleSaveFieldMappings st (Except.error e)).1.errorMessage = some (extractError e) ∧
      (handleSaveFieldMappings st (Except.error e)).1.isLoading = false) := by
  refine ⟨⟨rfl, rfl, rfl⟩, ⟨rfl, rfl, rfl⟩, fun h1 h2 => ?_⟩
  have hguard : (!truthyOpt st.selectedSObjectName || !truthyOpt st.selectedSystemApiName)
      = false := by rw [h1, h2]; rfl
  unfold handleSaveFieldMappings
  rw [hguard]
  exact ⟨rfl, rfl, rfl⟩

/-- C7, witness: a rejected `saveFieldMappings` (and `saveSystems`) at the
concrete state `c5State`. -/
theorem saves_on_reject_preserve_draft_witness :
    (handleSaveFieldMappings c5State (Except.error (.str "reject"))).1.fieldMappings
      = c5State.fieldMappings ∧
    (handleSaveFieldMappings c5State (Except.error (.str "reject"))).1.errorMessage
      = some (extractError (.str "reject")) ∧
    (handleSaveFieldMappings c5State (Except.error (.str "reject"))).1.isLoading = false ∧
    (handleSaveSystems c5State (Except.error (.str "reject"))).1.systems = c5State.systems := by
  have T := saves_on_reject_preserve_draft c5State (.str "reject")
  exact ⟨(T.2.2 rfl rfl).1, (T.2.2 rfl rfl).2.1, (T.2.2 rfl rfl).2.2, T.1.1⟩

/-! ### C8 — error normalization -/

/-- C8: `extractError` returns exactly one value per error shape: the literal
`"Unknown error"` for an absent (JavaScript-falsy) error; `error.body.message`
verbatim when the body bears a (truthy) `message`; the first entry's `message`
when the body is a non-empty sequence of message-bearing entries; and the JSON
serialization of the whole error otherwise (no truthy message at `body.message`
nor at `body[0].message`). -/
theorem extractError_normalizes (e : JSVal) :
    (truthy e = false → extractError e = .str "Unknown error") ∧
    (truthy e = true → truthy (getProp e "body") = true →
      truthy (getProp (getProp e "body") "message") = true →
      extractError e = getProp (getProp e "body") "message") ∧
    (∀ x rest, truthy e = true → getProp e "body" = .arr (x :: rest) →
      (∀ y ∈ x :: rest, truthy y = true ∧ truthy (getProp y "message") = true) →
      extractError e = getProp x "message") ∧
    (truthy e = true →
      truthy (getProp (getProp e "body") "message") = false →
      truthy (getProp (arrIndex (getProp e "body") 0) "message") = false →
      extractError e = .str ((jsonStringifyVal e).getD "undefined")) := by
  refine ⟨?_, ?_, ?_, ?_⟩
  · intro h
    unfold extractError
    rw [h, if_pos rfl]
  · intro h1 h2 h3
    unfold extractError
    rw [h1, if_neg (by decide : ¬ (true = false)), h2, h3, if_pos (by decide)]
  · intro x rest h1 hbody hall
    obtain ⟨hx, hxm⟩ := hall x (List.mem_cons_self x rest)
    unfold extractError
    rw [hbody, h1, if_neg (by decide : ¬ (true = false))]
    have hc2 : (truthy (JSVal.arr (x :: rest))
        && truthy (getProp (JSVal.arr (x :: rest)) "message")) = false := rfl
    rw [hc2, if_neg (by decide : ¬ (false = true))]
    have hc3 : (isArray (JSVal.arr (x :: rest))
        && truthy (arrIndex (JSVal.arr (x :: rest)) 0)
        && truthy (getProp (arrIndex (JSVal.arr (x :: rest)) 0) "message")) = true := by
      show (true && truthy x && truthy (getProp x "message")) = true
      rw [hx, hxm]
      rfl
    rw [hc3, if_pos rfl]
    rfl
  · intro h1 hno2 hno3
    unfold extractError
    rw [h1, if_neg (by decide : ¬ (true = false))]
    have hc2 : (truthy (getProp e "body")
        && truthy (getProp (getProp e "body") "message")) = false := by
      rw [hno2]; exact Bool.and_false _
    rw [hc2, if_neg (by decide : ¬ (false = true))]
    have hc3 : (isArray (getProp e "body") && truthy (arrIndex (getProp e "body") 0)
        && truthy (getProp (arrIndex (getProp e "body") 0) "message")) = false := by
      rw [hno3]; exact Bool.and_false _
    rw [hc3, if_neg (by decide : ¬ (false = true))]

/-- C8, witness: the four normalization clauses at concrete error shapes. -/
theorem extractError_normalizes_witness :
    extractError .undefined = .str "Unknown error" ∧
    extractError (.obj [("body", .obj [("message", .str "Boom")])]) = .str "Boom" ∧
    extractError (.obj [("body", .arr [.obj [("message", .str "First")]])]) = .str "First" ∧
    extractError (.obj [("status", .num 500)]) = .str "\x7b\"status\":500\x7d" := by
  refine ⟨(extractError_normalizes .undefined).1 rfl,
    (extractError_normalizes (.obj [("body", .obj [("message", .str "Boom")])])).2.1
      rfl rfl rfl,
    (extractError_normalizes (.obj [("body", .arr [.obj [("message", .str "First")]])])).2.2.1
      (.obj [("message", .str "First")]) [] rfl rfl ?_,
    (extractError_normalizes (.obj [("status", .num 500)])).2.2.2 rfl rfl rfl⟩
  intro y hy
  rw [List.mem_singleton] at hy
  subst hy
  exact ⟨rfl, rfl⟩

/-! ### C9 — no active context: tier-3 operations are no-ops -/

/-- C9: when either half of the active context is falsy (undefined or empty),
`addFieldMapping` and `handleSaveFieldMappings` return the state entirely
unchanged and issue no persist call. -/
theorem no_context_field_ops_are_noops (st : AdminState) (now : Nat)
    (pr : Except JSVal Unit)
    (h : truthyOpt st.selectedSObjectName = false ∨ truthyOpt st.selectedSystemApiName = false) :
    addFieldMapping st now = st ∧ handleSaveFieldMappings st pr = (st, none) := by
  have hguard : (!truthyOpt st.selectedSObjectName || !truthyOpt st.selectedSystemApiName)
      = true := by
    cases h with
    | inl h => rw [h]; rfl
    | inr h => rw [h]; exact Bool.or_true _
  constructor
  · unfold addFieldMapping
    rw [hguard, if_pos rfl]
  · unfold handleSaveFieldMappings
    rw [hguard, if_pos rfl]

/-- C9, witness: the no-op theorem at the initial state, whose context is
still undefined. -/
theorem no_context_field_ops_are_noops_witness :
    addFieldMapping initialState 3 = initialState ∧
    handleSaveFieldMappings initialState (Except.ok ()) = (initialState, none) :=
  no_context_field_ops_are_noops initialState 3 (Except.ok ()) (Or.inl rfl)

/-! ### C10 — every operation clears the error slot before its call -/

/-- C10: each save handler and the context resolver reset `errorMessage` to
null in the synchronous prefix that runs before the asynchronous call is
awaited, and an operation that completes successfully ends with the error slot
still clear — so a previously surfaced error never survives a later successful
operation. -/
theorem operations_clear_error_before_call (st : AdminState) :
    (handleSaveSystemsPre st).errorMessage = none ∧
    (handleSaveSystems st (Except.ok ())).1.errorMessage = none ∧
    (handleSaveObjectConfigsPre st).errorMessage = none ∧
    (handleSaveObjectConfigs st (Except.ok ())).1.errorMessage = none ∧
    (handleSaveFieldMappingsPre st).errorMessage = none ∧
    (truthyOpt st.selectedSObjectName = true → truthyOpt st.selectedSystemApiName = true →
      (handleSaveFieldMappings st (Except.ok ())).1.errorMessage = none) ∧
    (∀ cfg : ObjectConfig, (handleEditFieldsPre st cfg).errorMessage = none) ∧
    (∀ (i : Nat) (cfg : ObjectConfig) (fields : List FieldOption)
        (mappings : List FieldMap) (now : Nat) (rnd : Nat → String),
      st.objectConfigs[i]? = some cfg →
      (handleEditFields st (some i) (Except.ok (fields, mappings)) now rnd).errorMessage
        = none) := by
  refine ⟨rfl, rfl, rfl, rfl, rfl, fun h1 h2 => ?_, fun cfg => rfl,
    fun i cfg fields mappings now rnd hcfg => ?_⟩
  · have hguard : (!truthyOpt st.selectedSObjectName || !truthyOpt st.selectedSystemApiName)
        = false := by rw [h1, h2]; rfl
    unfold handleSaveFieldMappings
    rw [hguard]
    rfl
  · simp only [handleEditFields, hcfg]
    rfl

/-- C10, witness: the error-clearing theorem at `c5State` (truthy context and
an in-range tier-2 row). -/
theorem operations_clear_error_before_call_witness :
    (handleSaveSystemsPre c5State).errorMessage = none ∧
    (handleSaveFieldMappings c5State (Except.ok ())).1.errorMessage = none ∧
    (handleEditFields c5State (some 0) (Except.ok ([], [])) 3
        (fun _ => "x")).errorMessage = none := by
  have T := operations_clear_error_before_call c5State
  exact ⟨T.1, T.2.2.2.2.2.1 rfl rfl,
    T.2.2.2.2.2.2.2 0
      { developerName := "", sObjectName := "Opportunity", systemApiName := "BILLING",
        triggerReason := "", isActive := true, rowId := "tmp-obj-9-0" }
      [] [] 3 (fun _ => "x") rfl⟩

end IntegrationAdmin
